import Mathlib

/-!
Verification of the last30days-skill core against its specification.

The repository's core consists of a CacheStore (cache key derivation, cache
directory resolution with fallback, TTL validity, per-provider model cache),
a SearchRetryEngine (`search_x`, a bounded three-attempt query-narrowing loop
over an external search collaborator), and a response parser for the Reddit
discovery channel (`parse_reddit_response`).

`parse_reddit_response` is embedded from `scripts/lib/openai_reddit.py`.
The CacheStore (`scripts/lib/cache.py`) and the retry engine
(`search_x` / `_run_bird_search` / `_extract_core_subject` in
`scripts/lib/bird_x.py`) are exercised by the repository's tests but their
defining code is not present in the source tree, so they are modelled from
the specification (each such definition says so in its doc comment).
-/

/-! ### SearchRetryEngine (spec §4.2) -/

/-- Splitting a string on single spaces (the semantics of `str.split(" ")` /
`String.splitOn " "` for space-separated term lists), written by structural
recursion so that it evaluates inside the kernel. -/
def splitAux : List Char → List Char → List (List Char)
  | [], acc => [acc.reverse]
  | c :: cs, acc =>
    if c == ' ' then acc.reverse :: splitAux cs [] else splitAux cs (c :: acc)

/-- The space-separated terms of a string (see `splitAux`). -/
def splitTerms (s : String) : List String :=
  (splitAux s.data []).map String.mk

/-- Modelled from the spec: a candidate query is its term list joined by
spaces followed by the constant date-filter suffix `" since:<from_date>"`;
the defining code of `search_x` in `scripts/lib/bird_x.py` is not present in
`src/`. -/
def mkQuery (terms : List String) (from_date : String) : String :=
  String.intercalate " " terms ++ " since:" ++ from_date

/-- Modelled from the spec: the ordered term lists of the three bounded
attempts.  Attempt 1 uses the literal topic's terms; attempt 2 the first two
salient terms of the core subject returned by the `extract_core_subject`
collaborator; attempt 3 ("last chance") the single strongest token, which the
spec's end-to-end scenario (§8) and the repository's test fix to `"codex"`
for core subject `"best codex skill plugin"` — i.e. the last of the first two
salient terms; the design notes (§9) require preserving exactly this observed
3-step narrowing without generalisation. -/
def attemptTerms (extract_core_subject : String → String) (topic : String) :
    List (List String) :=
  [splitTerms topic,
   (splitTerms (extract_core_subject topic)).take 2,
   ((splitTerms (extract_core_subject topic)).take 2).getLast?.toList]

/-- Modelled from the spec: the precomputed ordered list of candidate queries
for one search invocation (spec §9 design note represents the narrowing policy
exactly this way). -/
def attemptQueries (extract_core_subject : String → String)
    (topic from_date : String) : List String :=
  (attemptTerms extract_core_subject topic).map (fun ts => mkQuery ts from_date)

/-- Outcome of one search invocation: the returned result set and the trace of
queries issued to the external search collaborator, in order. -/
structure SearchOutcome where
  results : List String
  calls : List String
  deriving DecidableEq

/-- Modelled from the spec: the bounded attempt loop.  `run_bird_search q`
returns `none` on a transport-level failure, which the engine absorbs as an
empty result set (spec §4.2 failure semantics); the loop short-circuits on the
first non-empty result set. -/
def runAttempts (run_bird_search : String → Option (List String)) :
    List String → SearchOutcome
  | [] => { results := [], calls := [] }
  | q :: qs =>
    let r := (run_bird_search q).getD []
    if r.isEmpty then
      let o := runAttempts run_bird_search qs
      { results := o.results, calls := q :: o.calls }
    else
      { results := r, calls := [q] }

/-- Modelled from the spec: `search_x` from `scripts/lib/bird_x.py`, whose
defining code is absent from `src/` (only `src/tests/test_bird_x.py` exercises
it).  The external collaborators `_run_bird_search` and
`_extract_core_subject` are parameters; `to_date` and the depth setting are
owned by the collaborator (spec §5) and do not enter the query narrowing. -/
def search_x (run_bird_search : String → Option (List String))
    (extract_core_subject : String → String)
    (topic from_date : String) : SearchOutcome :=
  runAttempts run_bird_search (attemptQueries extract_core_subject topic from_date)

lemma runAttempts_calls_length_le (rs : String → Option (List String))
    (qs : List String) : (runAttempts rs qs).calls.length ≤ qs.length := by
  induction qs with
  | nil => simp [runAttempts]
  | cons q qs ih =>
    simp only [runAttempts]
    by_cases h : ((rs q).getD []).isEmpty
    · simp [h, ih]
    · simp [h]

lemma runAttempts_all_empty (rs : String → Option (List String))
    (qs : List String) (h : ∀ q ∈ qs, (rs q).getD [] = []) :
    runAttempts rs qs = { results := [], calls := qs } := by
  induction qs with
  | nil => simp [runAttempts]
  | cons q qs ih =>
    have hq : (rs q).getD [] = [] := h q (by simp)
    have hrest : ∀ q' ∈ qs, (rs q').getD [] = [] := fun q' hq' => h q' (by simp [hq'])
    simp [runAttempts, hq, ih hrest]

lemma runAttempts_head_nonempty (rs : String → Option (List String))
    (q : String) (qs : List String) (h : (rs q).getD [] ≠ []) :
    runAttempts rs (q :: qs) = { results := (rs q).getD [], calls := [q] } := by
  simp [runAttempts, h]

lemma runAttempts_cons_of_empty (rs : String → Option (List String))
    (q : String) (qs : List String) (h : (rs q).getD [] = []) :
    runAttempts rs (q :: qs) =
      { results := (runAttempts rs qs).results,
        calls := q :: (runAttempts rs qs).calls } := by
  simp [runAttempts, h]

lemma runAttempts_dropLast_empty (rs : String → Option (List String))
    (qs : List String) :
    ∀ q ∈ (runAttempts rs qs).calls.dropLast, (rs q).getD [] = [] := by
  induction qs with
  | nil => simp [runAttempts]
  | cons q qs ih =>
    by_cases h : (rs q).getD [] = []
    · intro q' hq'
      rw [runAttempts_cons_of_empty rs q qs h] at hq'
      rcases hc : (runAttempts rs qs).calls with _ | ⟨c, cs⟩
      · simp [hc] at hq'
      · rw [hc] at hq'
        simp only [List.dropLast_cons₂] at hq'
        rcases List.mem_cons.mp hq' with h1 | h2
        · subst h1; exact h
        · exact ih q' (by rw [hc]; exact h2)
    · intro q' hq'
      rw [runAttempts_head_nonempty rs q qs h] at hq'
      simp at hq'

lemma runAttempts_congr (rs rs' : String → Option (List String))
    (h : ∀ q, (rs q).getD [] = (rs' q).getD []) (qs : List String) :
    runAttempts rs qs = runAttempts rs' qs := by
  induction qs with
  | nil => rfl
  | cons q qs ih => simp [runAttempts, h q, ih]

lemma runAttempts_calls_length_pos (rs : String → Option (List String))
    (q : String) (qs : List String) :
    0 < (runAttempts rs (q :: qs)).calls.length := by
  by_cases h : ((rs q).getD []).isEmpty
  · simp [runAttempts, h]
  · simp [runAttempts, h]

lemma attemptQueries_eq (ec : String → String) (topic fd : String) :
    attemptQueries ec topic fd =
      mkQuery (splitTerms topic) fd ::
        [mkQuery ((splitTerms (ec topic)).take 2) fd,
         mkQuery (((splitTerms (ec topic)).take 2).getLast?.toList) fd] := by
  simp [attemptQueries, attemptTerms]

/-- C1: with topic `"best codex skill plugin"`, a core-subject collaborator
returning the same string, and every attempt returning an empty result set,
exactly the three literal queries of the test are issued, in order. -/
theorem search_x_three_literal_queries
    (rs : String → Option (List String)) (ec : String → String)
    (hec : ec "best codex skill plugin" = "best codex skill plugin")
    (hrs : ∀ q, rs q = some []) :
    (search_x rs ec "best codex skill plugin" "2026-01-01").calls =
      ["best codex skill plugin since:2026-01-01",
       "best codex since:2026-01-01",
       "codex since:2026-01-01"] := by
  have hempty : ∀ q ∈ attemptQueries ec "best codex skill plugin" "2026-01-01",
      (rs q).getD [] = [] := by
    intro q _
    simp [hrs q]
  rw [search_x, runAttempts_all_empty rs _ hempty]
  simp only [attemptQueries, attemptTerms, hec]
  decide

/-- Witness for C1 at the concrete collaborators of the repository's test. -/
theorem search_x_three_literal_queries_witness :
    (search_x (fun _ => some []) id "best codex skill plugin" "2026-01-01").calls =
      ["best codex skill plugin since:2026-01-01",
       "best codex since:2026-01-01",
       "codex since:2026-01-01"] :=
  search_x_three_literal_queries (fun _ => some []) id rfl (fun _ => rfl)

/-- C2: the engine never issues a fourth call, every call but the last
returned an empty result set (so the first non-empty attempt stops the loop
and the call count equals the attempts executed), a non-empty first attempt
short-circuits to a single call, and if all three attempts are empty the
engine returns an empty result set. -/
theorem search_x_short_circuit
    (rs : String → Option (List String)) (ec : String → String)
    (topic fd : String) :
    (search_x rs ec topic fd).calls.length ≤ 3 ∧
    (∀ q ∈ (search_x rs ec topic fd).calls.dropLast, (rs q).getD [] = []) ∧
    ((rs (mkQuery (splitTerms topic) fd)).getD [] ≠ [] →
      (search_x rs ec topic fd).calls = [mkQuery (splitTerms topic) fd]) ∧
    ((∀ q ∈ attemptQueries ec topic fd, (rs q).getD [] = []) →
      (search_x rs ec topic fd).results = []) := by
  refine ⟨?_, ?_, ?_, ?_⟩
  · have h := runAttempts_calls_length_le rs (attemptQueries ec topic fd)
    simpa [attemptQueries_eq, search_x] using h
  · exact runAttempts_dropLast_empty rs (attemptQueries ec topic fd)
  · intro h
    rw [search_x, attemptQueries_eq, runAttempts_head_nonempty rs _ _ h]
  · intro h
    rw [search_x, runAttempts_all_empty rs _ h]

/-- Witness for C2: with a collaborator whose first attempt is non-empty, the
short-circuit clause yields exactly one call. -/
theorem search_x_short_circuit_witness :
    (search_x (fun _ => some ["hit"]) id "a b" "2026-01-01").calls =
      ["a b since:2026-01-01"] := by
  have h := (search_x_short_circuit (fun _ => some ["hit"]) id "a b" "2026-01-01").2.2.1
    (by decide)
  rw [h]
  decide

/-- C5: a transport-level failure (`none` from the collaborator) is treated
identically to an empty result set — the whole invocation behaves exactly as
if that call had returned `some []` — and a failing first attempt still
consumes its attempt and proceeds to narrowing (at least a second call is
issued).  The engine is a total function, so it never raises. -/
theorem search_x_transport_failure_as_empty
    (rs : String → Option (List String)) (ec : String → String)
    (topic fd : String) :
    search_x rs ec topic fd =
      search_x (fun q => some ((rs q).getD [])) ec topic fd ∧
    (rs (mkQuery (splitTerms topic) fd) = none →
      2 ≤ (search_x rs ec topic fd).calls.length) := by
  constructor
  · exact runAttempts_congr rs _ (fun q => by simp) (attemptQueries ec topic fd)
  · intro h
    have hempty : (rs (mkQuery (splitTerms topic) fd)).getD [] = [] := by
      simp [h]
    rw [search_x, attemptQueries_eq, runAttempts_cons_of_empty rs _ _ hempty]
    have hpos := runAttempts_calls_length_pos rs
      (mkQuery ((splitTerms (ec topic)).take 2) fd)
      [mkQuery (((splitTerms (ec topic)).take 2).getLast?.toList) fd]
    simp only [List.length_cons]
    omega

/-- Witness for C5 at an always-failing collaborator. -/
theorem search_x_transport_failure_as_empty_witness :
    2 ≤ (search_x (fun _ => none) id "a" "2026-01-01").calls.length :=
  (search_x_transport_failure_as_empty (fun _ => none) id "a" "2026-01-01").2 rfl

/-- C6: across the attempts of one invocation the query monotonically narrows
(the term count never increases from one attempt to the next, given that the
core subject has no more terms than the topic), while every candidate query
carries the constant date-filter suffix `" since:<from_date>"`. -/
theorem search_x_monotone_narrowing
    (ec : String → String) (topic fd : String)
    (h : (splitTerms (ec topic)).length ≤ (splitTerms topic).length) :
    List.Chain' (fun a b => b ≤ a) ((attemptTerms ec topic).map List.length) ∧
    ∀ q ∈ attemptQueries ec topic fd,
      ∃ b, q = b ++ (" since:" ++ fd) := by
  constructor
  · simp only [attemptTerms, List.map_cons, List.map_nil, List.chain'_cons,
      List.chain'_singleton, and_true]
    rcases hc : splitTerms (ec topic) with _ | ⟨a, _ | ⟨b, rest⟩⟩ <;>
      rw [hc] at h <;> simp at h ⊢ <;> omega
  · intro q hq
    simp only [attemptQueries, List.mem_map] at hq
    obtain ⟨ts, _, rfl⟩ := hq
    exact ⟨String.intercalate " " ts, by simp [mkQuery, String.append_assoc]⟩

/-- Witness for C6 at a concrete topic and identity core-subject collaborator. -/
theorem search_x_monotone_narrowing_witness :
    List.Chain' (fun a b => b ≤ a) ((attemptTerms id "a b").map List.length) ∧
    ∀ q ∈ attemptQueries id "a b" "2026-01-01",
      ∃ b, q = b ++ (" since:" ++ "2026-01-01") :=
  search_x_monotone_narrowing id "a b" "2026-01-01" (by decide)

/-! ### CacheStore (spec §4.1) -/

/-- The lowercase hexadecimal digit character for a value below 16
(`0`–`9` then `a`–`f`). -/
def hexChar (n : Nat) : Char :=
  if n < 10 then Char.ofNat (48 + n) else Char.ofNat (87 + n)

/-- The 16-character zero-padded hexadecimal rendering of a 64-bit value. -/
def toHex16 (n : Nat) : String :=
  String.mk ((List.range 16).map (fun i => hexChar (n / 16 ^ (15 - i) % 16)))

/-- A 64-bit FNV-1a-style string hash, folded with an explicit `% 2 ^ 64`. -/
def strHash (seed : Nat) (s : String) : Nat :=
  s.data.foldl (fun h c => ((h ^^^ c.toNat) * 1099511628211) % 2 ^ 64) seed

/-- Modelled from the spec: `get_cache_key` of `scripts/lib/cache.py`, whose
defining code is absent from `src/` (only `src/tests/test_cache.py` exercises
it).  A pure, deterministic 16-character token derived from the 4-tuple
(topic, from_date, to_date, mode) and nothing else — here a 64-bit hash of
the joined fields rendered as 16 hex characters. -/
def get_cache_key (topic from_date to_date mode : String) : String :=
  toHex16 (strHash 14695981039346656037
    (String.intercalate "|" [topic, from_date, to_date, mode]))

/-- C3: `get_cache_key` is a pure function of the four inputs — repeated
calls on a fixed 4-tuple give the identical key (in the embedding the
function reads no state besides its four arguments, so this is definitional)
— and every returned key has length exactly 16. -/
theorem get_cache_key_deterministic_len16 (topic from_date to_date mode : String) :
    get_cache_key topic from_date to_date mode =
      get_cache_key topic from_date to_date mode ∧
    (get_cache_key topic from_date to_date mode).length = 16 := by
  refine ⟨rfl, ?_⟩
  simp [get_cache_key, toHex16, String.length]

/-- Modelled from the spec: the preferred cache directory — the environment
override verbatim when set, else the fixed conventional per-user path. -/
def preferredCacheDir (env_override : Option String) (home : String) : String :=
  env_override.getD (home ++ "/.cache/last30days/cache")

/-- Modelled from the spec: the temp-rooted fallback directory, carrying the
recognizable product-name substring `"last30days/cache"` that the repository's
test asserts. -/
def fallbackCacheDir (tmp : String) : String := tmp ++ "/last30days/cache"

/-- Modelled from the spec: `ensure_cache_dir` of `scripts/lib/cache.py`,
whose defining code is absent from `src/`.  `perm_error_at_preferred` states
that the first creation attempt at the preferred location raises a permission
error, in which case the resolution falls back to the temp-rooted directory
(the second creation attempt, which succeeds).  The total return type — a
directory is always resolved — embeds the spec's requirement that the error
is logged, not propagated. -/
def ensure_cache_dir (env_override : Option String) (home tmp : String)
    (perm_error_at_preferred : Bool) : String :=
  if perm_error_at_preferred then fallbackCacheDir tmp
  else preferredCacheDir env_override home

/-- C4: when the first creation attempt at the preferred location raises a
permission error, the resolved directory is the temp-rooted fallback, which
contains the fixed product-name substring `"last30days/cache"`; resolution
still returns a directory (the error is not fatal). -/
theorem ensure_cache_dir_perm_fallback (env_override : Option String)
    (home tmp : String) :
    ensure_cache_dir env_override home tmp true = tmp ++ "/last30days/cache" ∧
    ∃ rest, ensure_cache_dir env_override home tmp true =
      tmp ++ ("/" ++ ("last30days/cache" ++ rest)) := by
  refine ⟨rfl, "", ?_⟩
  show tmp ++ "/last30days/cache" = tmp ++ ("/" ++ ("last30days/cache" ++ ""))
  simp

/-- C7: when the cache-directory override environment variable is set (and no
permission error occurs), the resolved cache directory is exactly the
override path, verbatim. -/
theorem ensure_cache_dir_env_override (p home tmp : String) :
    ensure_cache_dir (some p) home tmp false = p := rfl

/-- The cache-entry TTL: 24 hours, as a configuration constant (in seconds). -/
def CACHE_TTL_SECONDS : Nat := 24 * 60 * 60

/-- Modelled from the spec: `is_cache_valid` of `scripts/lib/cache.py`, whose
defining code is absent from `src/`.  The location is abstracted to its
modification time: `none` when the location does not exist (or cannot be
statted); a total `Bool` result embeds "must not raise on a missing or
corrupt target". -/
def is_cache_valid (mtime : Option Nat) (now : Nat) : Bool :=
  match mtime with
  | none => false
  | some t => decide (now - t < CACHE_TTL_SECONDS)

/-- C8: `is_cache_valid` is false for every location that does not exist, and
true exactly when the location exists and its age is below the TTL, whose
default is 24 hours. -/
theorem is_cache_valid_spec (now t : Nat) :
    is_cache_valid none now = false ∧
    (is_cache_valid (some t) now = true ↔ now - t < CACHE_TTL_SECONDS) ∧
    CACHE_TTL_SECONDS = 24 * 60 * 60 := by
  refine ⟨rfl, ?_, rfl⟩
  simp [is_cache_valid]

/-- The per-provider model-selection record TTL (its own configuration
constant; the spec leaves the value to configuration). -/
def MODEL_CACHE_TTL_SECONDS : Nat := 24 * 60 * 60

/-- Modelled from the spec: the state of the persisted model-selection file —
missing, unparseable, or a list of (provider, model, cached_at) records. -/
inductive ModelCacheFile where
  | missing : ModelCacheFile
  | corrupt : ModelCacheFile
  | entries : List (String × String × Nat) → ModelCacheFile

/-- Modelled from the spec: `get_cached_model` of `scripts/lib/cache.py`,
whose defining code is absent from `src/`.  Reads the per-provider record;
missing or unparseable files, unknown providers and expired records are all
reported as absent (`none`), never raised. -/
def get_cached_model (file : ModelCacheFile) (now : Nat) (provider : String) :
    Option String :=
  match file with
  | .missing => none
  | .corrupt => none
  | .entries l =>
    match l.find? (fun e => e.1 == provider) with
    | none => none
    | some e => if now - e.2.2 < MODEL_CACHE_TTL_SECONDS then some e.2.1 else none

/-- C9: `get_cached_model` returns absent rather than raising whenever the
record is missing (absent file, unknown provider) or unparseable or expired. -/
theorem get_cached_model_absent (now : Nat) (provider : String)
    (l : List (String × String × Nat)) (m : String) (t : Nat)
    (hunknown : ∀ e ∈ l, e.1 ≠ provider)
    (hexpired : MODEL_CACHE_TTL_SECONDS ≤ now - t) :
    get_cached_model .missing now provider = none ∧
    get_cached_model .corrupt now provider = none ∧
    get_cached_model (.entries l) now provider = none ∧
    get_cached_model (.entries [(provider, m, t)]) now provider = none := by
  refine ⟨rfl, rfl, ?_, ?_⟩
  · have hfind : l.find? (fun e => e.1 == provider) = none := by
      rw [List.find?_eq_none]
      intro e he
      simpa using hunknown e he
    simp [get_cached_model, hfind]
  · simp only [get_cached_model, List.find?]
    simp only [beq_self_eq_true, if_pos]
    rw [if_neg]
    omega

/-- Witness for C9 at an unknown provider, an empty record list and an
expired singleton record. -/
theorem get_cached_model_absent_witness :
    get_cached_model .missing 100000000 "nonexistent_provider" = none ∧
    get_cached_model .corrupt 100000000 "nonexistent_provider" = none ∧
    get_cached_model (.entries []) 100000000 "nonexistent_provider" = none ∧
    get_cached_model (.entries [("nonexistent_provider", "gpt-5", 0)])
      100000000 "nonexistent_provider" = none :=
  get_cached_model_absent 100000000 "nonexistent_provider" [] "gpt-5" 0
    (by simp) (by decide)

/-! ### parse_reddit_response (`scripts/lib/openai_reddit.py`, lines 131-220) -/

/-- JSON values, the domain of the response dict's entries. -/
inductive Json where
  | null : Json
  | bool : Bool → Json
  | num : Rat → Json
  | str : String → Json
  | arr : List Json → Json
  | obj : List (String × Json) → Json

/-- Python `d.get(k)` on a dict (keys are unique; the first binding wins). -/
def dictGet (d : List (String × Json)) (k : String) : Option Json :=
  (d.find? (fun p => p.1 == k)).map (fun p => p.2)

/-- Python `d.get(k, dflt)`. -/
def dictGetD (d : List (String × Json)) (k : String) (dflt : Json) : Json :=
  (dictGet d k).getD dflt

/-- Python truthiness of a JSON value. -/
def pyTruthy : Json → Bool
  | .null => false
  | .bool b => b
  | .num q => q != 0
  | .str s => s != ""
  | .arr l => !l.isEmpty
  | .obj l => !l.isEmpty

/-- Python `j == "<literal>"`: true exactly when `j` is that string (equality
between a string and any non-string is `False`). -/
def jsonEqStr (j : Json) (s : String) : Bool :=
  match j with
  | .str t => t == s
  | _ => false

/-- Whether the second character list starts with the first. -/
def headMatches (needle hay : List Char) : Bool :=
  hay.take needle.length == needle

/-- Whether the first character list occurs inside the second. -/
def hasSub (needle : List Char) : List Char → Bool
  | [] => needle.isEmpty
  | c :: t => headMatches needle (c :: t) || hasSub needle t

/-- Python `"<needle>" in j`: substring test on strings, element test on
lists, key test on dicts; `none` models the `TypeError` raised on the other
types. -/
def pyIn (needle : String) : Json → Option Bool
  | .str s => some (hasSub needle.data s.data)
  | .arr l => some (l.any (fun x => jsonEqStr x needle))
  | .obj d => some (d.any (fun p => p.1 == needle))
  | _ => none

/-- Python iteration `for x in j`: lists yield their elements, strings yield
one-character strings, dicts yield their keys; `none` models the `TypeError`
on non-iterables. -/
def pyIter : Json → Option (List Json)
  | .arr l => some l
  | .str s => some (s.data.map (fun c => .str (String.mk [c])))
  | .obj d => some (d.map (fun p => .str p.1))
  | _ => none

/-- Lines 162-165: scan a message's `content` for the first dict with
`type == "output_text"` and take its `"text"` (default `""`); when none
matches the running `output_text` is left unchanged. -/
def contentScan (acc : Json) : List Json → Json
  | [] => acc
  | c :: rest =>
    match c with
    | .obj d =>
      if jsonEqStr (dictGetD d "type" .null) "output_text" then
        dictGetD d "text" (.str "")
      else contentScan acc rest
    | _ => contentScan acc rest

/-- Lines 157-171: the scan over `response["output"]` when it is a list.
`acc` is the running `output_text`; the loop breaks at the first truthy
value; `none` models the `TypeError` raised when a message's `content` is
not iterable. -/
def scanOutput (acc : Json) : List Json → Option Json
  | [] => some acc
  | item :: rest =>
    match item with
    | .obj d =>
      if jsonEqStr (dictGetD d "type" .null) "message" then
        match pyIter (dictGetD d "content" (.arr [])) with
        | none => none
        | some cs =>
          let acc' := contentScan acc cs
          if pyTruthy acc' then some acc' else scanOutput acc' rest
      else
        match dictGet d "text" with
        | some t => if pyTruthy t then some t else scanOutput t rest
        | none => if pyTruthy acc then some acc else scanOutput acc rest
    | .str s =>
      if pyTruthy (.str s) then some (.str s) else scanOutput (.str s) rest
    | _ => if pyTruthy acc then some acc else scanOutput acc rest

/-- Lines 174-178: the `choices` fallback.  The first choice containing
`"message"` provides `choice["message"].get("content", "")`; `none` models
the errors Python raises when such a choice is not a dict (string/list
indexing with a string key) or its `"message"` value has no `.get`. -/
def scanChoices (acc : Json) : List Json → Option Json
  | [] => some acc
  | ch :: rest =>
    match pyIn "message" ch with
    | none => none
    | some false => scanChoices acc rest
    | some true =>
      match ch with
      | .obj d =>
        match dictGetD d "message" .null with
        | .obj m => some (dictGetD m "content" (.str ""))
        | _ => none
      | _ => none

/-- Lines 152-181 as one stage: the resolved `output_text` (`none` = the
Python code raised). -/
def getOutputText (response : List (String × Json)) : Option Json :=
  match
    (match dictGet response "output" with
     | some (.str s) => some (Json.str s)
     | some (.arr l) => scanOutput (.str "") l
     | some _ => some (Json.str "")
     | none => some (Json.str "")) with
  | none => none
  | some ot1 =>
    if !pyTruthy ot1 then
      match dictGet response "choices" with
      | some chs =>
        match pyIter chs with
        | none => none
        | some l => scanChoices ot1 l
      | none => some ot1
    else some ot1

/-- The check `re.match(r'^\d\x7b4\x7d-\d\x7b2\x7d-\d\x7b2\x7d$', s)` of
line 215: ten characters `DDDD-DD-DD`, optionally followed by one trailing
newline (Python's `$` also matches just before a final newline).  `\d` is
modelled as an ASCII digit. -/
def matchesDatePattern (s : String) : Bool :=
  match s.data with
  | [a, b, c, d, e, f, g, h, i, j] =>
    a.isDigit && b.isDigit && c.isDigit && d.isDigit && e == '-' &&
    f.isDigit && g.isDigit && h == '-' && i.isDigit && j.isDigit
  | [a, b, c, d, e, f, g, h, i, j, nl] =>
    a.isDigit && b.isDigit && c.isDigit && d.isDigit && e == '-' &&
    f.isDigit && g.isDigit && h == '-' && i.isDigit && j.isDigit && nl == '\n'
  | _ => false

/-- Lines 213-216: the date-format validation.  A falsy date is left
untouched (the `if clean_item["date"]:` guard skips it); a truthy date is
kept only when `str(date)` matches the pattern — which for JSON values only
a string can do: `str()` of numbers has no hyphens at the pattern's
positions, of lists and dicts starts with a bracket, of `True` contains no
digit — and is otherwise replaced by `None`. -/
def validateDate (date : Json) : Json :=
  if pyTruthy date then
    match date with
    | .str s => if matchesDatePattern s then .str s else .null
    | _ => .null
  else date

/-- A Python float: finite value, `nan`, or a signed infinity. -/
inductive PyNum where
  | fin : Rat → PyNum
  | nan : PyNum
  | inf : PyNum
  | ninf : PyNum

/-- Line 210's clamp `min(1.0, max(0.0, x))` under Python comparison
semantics: comparisons against `nan` are false, so `max`/`min` keep their
first argument, and every float — `nan` and the infinities included — is
clamped into `[0, 1]`. -/
def clamp01 : PyNum → Rat
  | .fin q => min 1 (max 0 q)
  | .nan => 0
  | .inf => 1
  | .ninf => 0

/-- The value of a digit run. -/
def digitsToNat (l : List Char) : Nat :=
  l.foldl (fun a c => a * 10 + (c.toNat - 48)) 0

/-- A digit run and the rest. -/
def spanDigits (l : List Char) : List Char × List Char :=
  (l.takeWhile Char.isDigit, l.dropWhile Char.isDigit)

/-- An unsigned decimal numeral `digits[.digits]` as a rational; exotic
literal forms accepted by Python (exponents, underscores) are modelled as
errors, which only affects which inputs raise. -/
def parseUnsignedDecimal (l : List Char) : Option Rat :=
  match spanDigits l with
  | (ip, []) => if ip.isEmpty then none else some (digitsToNat ip : Rat)
  | (ip, '.' :: rest2) =>
    match spanDigits rest2 with
    | (fp, []) =>
      if ip.isEmpty && fp.isEmpty then none
      else some ((digitsToNat ip : Rat) + (digitsToNat fp : Rat) / (10 : Rat) ^ fp.length)
    | _ => none
  | _ => none

/-- Python `float(<str>)`: surrounding whitespace and an optional sign, then
a decimal numeral, `"inf"`/`"infinity"` or `"nan"` (case-insensitive);
`none` models the `ValueError`. -/
def parsePyFloat (s : String) : Option PyNum :=
  match s.trim.toLower.data with
  | '-' :: rest =>
    if rest == "inf".data || rest == "infinity".data then some .ninf
    else if rest == "nan".data then some .nan
    else (parseUnsignedDecimal rest).map (fun q => .fin (-q))
  | '+' :: rest =>
    if rest == "inf".data || rest == "infinity".data then some .inf
    else if rest == "nan".data then some .nan
    else (parseUnsignedDecimal rest).map (fun q => .fin q)
  | t =>
    if t == "inf".data || t == "infinity".data then some .inf
    else if t == "nan".data then some .nan
    else (parseUnsignedDecimal t).map (fun q => .fin q)

/-- Python `float()` on a JSON value: numbers convert, booleans become 0/1,
numeric strings parse; `None`, lists and dicts raise (`none`). -/
def pyFloat : Json → Option PyNum
  | .num q => some (.fin q)
  | .bool b => some (.fin (if b then 1 else 0))
  | .str s => parsePyFloat s
  | _ => none

/-- Python `str()` of a JSON value, reaching only the free-text fields
`title`, `subreddit` and `why_relevant` (never `url`, `date` or
`relevance`): numeric and container reprs are shallow stand-ins. -/
def pyStr : Json → String
  | .null => "None"
  | .bool true => "True"
  | .bool false => "False"
  | .num q => toString q.num ++ (if q.den == 1 then "" else "/" ++ toString q.den)
  | .str s => s
  | .arr _ => "[…]"
  | .obj _ => "\x7b…\x7d"

/-- Python `.lstrip("r/")`: drop every leading `'r'` or `'/'`. -/
def lstripRSlash (s : String) : String :=
  String.mk (s.data.dropWhile (fun c => c == 'r' || c == '/'))

/-- One cleaned item as assembled at lines 203-211. -/
structure CleanItem where
  id : String
  title : String
  url : Json
  subreddit : String
  date : Json
  why_relevant : String
  relevance : Rat

/-- Lines 195-218 for a single enumerated raw item: `none` models a raised
error, `some none` a `continue`, `some (some ci)` an appended clean item.
The guard `not url or "reddit.com" not in url` short-circuits, so a falsy
non-string `url` skips the item without raising. -/
def cleanOne (i : Nat) (item : Json) : Option (Option CleanItem) :=
  match item with
  | .obj d =>
    if !pyTruthy (dictGetD d "url" (.str "")) then some none
    else
      match pyIn "reddit.com" (dictGetD d "url" (.str "")) with
      | none => none
      | some false => some none
      | some true =>
        match pyFloat (dictGetD d "relevance" (.num (1 / 2))) with
        | none => none
        | some rel =>
          some (some
            { id := "R" ++ toString (i + 1),
              title := (pyStr (dictGetD d "title" (.str ""))).trim,
              url := dictGetD d "url" (.str ""),
              subreddit := lstripRSlash ((pyStr (dictGetD d "subreddit" (.str ""))).trim),
              date := validateDate ((dictGet d "date").getD .null),
              why_relevant := (pyStr (dictGetD d "why_relevant" (.str ""))).trim,
              relevance := clamp01 rel })
  | _ => some none

/-- The cleaning loop of lines 193-218 over the enumerated raw items. -/
def cleanLoop : List (Nat × Json) → Option (List CleanItem)
  | [] => some []
  | (i, item) :: rest =>
    match cleanOne i item with
    | none => none
    | some none => cleanLoop rest
    | some (some ci) =>
      match cleanLoop rest with
      | none => none
      | some l => some (ci :: l)

/-- Lines 131-220: `parse_reddit_response`.  `extract_items` stands for the
regex-plus-`json.loads` extraction of lines 184-191 (response-JSON
extraction is an external collaborator per spec §1): it returns the value of
`data.get("items", [])`, and `Json.arr []` when the regex finds no match or
decoding fails.  The result is `none` exactly when the Python function would
raise, `some items` otherwise. -/
def parse_reddit_response (extract_items : String → Json)
    (response : List (String × Json)) : Option (List CleanItem) :=
  if (dictGet response "error").elim false pyTruthy then some []
  else
    match getOutputText response with
    | none => none
    | some ot =>
      if !pyTruthy ot then some []
      else
        match ot with
        | .str text =>
          match pyIter (extract_items text) with
          | none => none
          | some items => cleanLoop items.enum
        | _ => none

/-- The invariant C10 ascribes to every returned item, in its amended form:
a truthy `url` passing the `"reddit.com"` membership test, a `relevance` in
`[0, 1]`, and a `date` that is either falsy or a string matching the date
pattern. -/
def GoodItem (ci : CleanItem) : Prop :=
  pyTruthy ci.url = true ∧
  pyIn "reddit.com" ci.url = some true ∧
  0 ≤ ci.relevance ∧ ci.relevance ≤ 1 ∧
  (pyTruthy ci.date = false ∨
    ∃ s, ci.date = Json.str s ∧ matchesDatePattern s = true)

lemma clamp01_nonneg : ∀ n, 0 ≤ clamp01 n
  | .fin q => le_min (by norm_num) (le_max_left 0 q)
  | .nan => le_refl 0
  | .inf => by norm_num [clamp01]
  | .ninf => le_refl 0

lemma clamp01_le_one : ∀ n, clamp01 n ≤ 1
  | .fin q => min_le_left 1 (max 0 q)
  | .nan => by norm_num [clamp01]
  | .inf => le_refl 1
  | .ninf => by norm_num [clamp01]

lemma validateDate_ok (d : Json) :
    pyTruthy (validateDate d) = false ∨
    ∃ s, validateDate d = .str s ∧ matchesDatePattern s = true := by
  unfold validateDate
  by_cases h : pyTruthy d = true
  · rw [if_pos h]
    cases d with
    | str s =>
      by_cases hm : matchesDatePattern s = true
      · refine Or.inr ⟨s, ?_, hm⟩
        show (if matchesDatePattern s = true then Json.str s else Json.null) = Json.str s
        rw [if_pos hm]
      · refine Or.inl ?_
        show pyTruthy (if matchesDatePattern s = true then Json.str s else Json.null) = false
        rw [if_neg hm]
        rfl
    | null => exact Or.inl rfl
    | bool b => exact Or.inl rfl
    | num q => exact Or.inl rfl
    | arr l => exact Or.inl rfl
    | obj o => exact Or.inl rfl
  · rw [if_neg h]
    exact Or.inl (by simpa using h)

lemma cleanOne_good (i : Nat) (item : Json) (ci : CleanItem)
    (h : cleanOne i item = some (some ci)) : GoodItem ci := by
  cases item with
  | null => simp [cleanOne] at h
  | bool b => simp [cleanOne] at h
  | num q => simp [cleanOne] at h
  | str s => simp [cleanOne] at h
  | arr l => simp [cleanOne] at h
  | obj d =>
    simp only [cleanOne] at h
    split at h
    · simp at h
    · rename_i hurl
      split at h
      · simp at h
      · simp at h
      · rename_i hin
        split at h
        · simp at h
        · rename_i rel hrel
          simp only [Option.some.injEq] at h
          subst h
          refine ⟨by simpa using hurl, hin, clamp01_nonneg rel, clamp01_le_one rel,
            validateDate_ok _⟩

lemma cleanLoop_good (l : List (Nat × Json)) (out : List CleanItem)
    (h : cleanLoop l = some out) : ∀ ci ∈ out, GoodItem ci := by
  induction l generalizing out with
  | nil =>
    simp only [cleanLoop, Option.some.injEq] at h
    subst h
    simp
  | cons p rest ih =>
    obtain ⟨i, item⟩ := p
    simp only [cleanLoop] at h
    split at h
    · simp at h
    · exact ih out h
    · rename_i ci0 heq
      split at h
      · simp at h
      · rename_i l' heq2
        simp only [Option.some.injEq] at h
        subst h
        intro ci hci
        rcases List.mem_cons.mp hci with h1 | h2
        · subst h1
          exact cleanOne_good i item ci heq
        · exact ih l' heq2 ci h2

/-- C10 (amended): every item returned by `parse_reddit_response` has a
truthy `url` on which the Python membership test `"reddit.com" in url`
succeeds, a `relevance` in `[0, 1]`, and a `date` that is either falsy or a
string matching `YYYY-MM-DD` (with the single trailing newline tolerated by
`re.match`'s `$`); and a response with a truthy `error` field yields the
empty list. -/
theorem parse_reddit_response_invariant (extract_items : String → Json)
    (response : List (String × Json)) (out : List CleanItem)
    (hout : parse_reddit_response extract_items response = some out) :
    ((dictGet response "error").elim false pyTruthy = true → out = []) ∧
    ∀ ci ∈ out, GoodItem ci := by
  rw [parse_reddit_response] at hout
  by_cases herr : (dictGet response "error").elim false pyTruthy = true
  · rw [if_pos herr] at hout
    simp only [Option.some.injEq] at hout
    subst hout
    exact ⟨fun _ => rfl, by simp⟩
  · rw [if_neg herr] at hout
    refine ⟨fun hc => absurd hc herr, ?_⟩
    split at hout
    · simp at hout
    · split at hout
      · simp only [Option.some.injEq] at hout
        subst hout
        simp
      · split at hout
        · split at hout
          · simp at hout
          · exact cleanLoop_good _ out hout
        · simp at hout

/-- Witness for C10's amended theorem at a concrete truthy-error response. -/
theorem parse_reddit_response_invariant_witness :
    ((dictGet [("error", Json.str "boom")] "error").elim false pyTruthy = true →
      ([] : List CleanItem) = []) ∧
    ∀ ci ∈ ([] : List CleanItem), GoodItem ci :=
  parse_reddit_response_invariant (fun _ => Json.arr [])
    [("error", Json.str "boom")] [] rfl

/-- The raw output text of the counterexample run: a JSON object whose single
item has a Reddit thread URL and an empty-string `date`. -/
def exText : String :=
  "\x7b\"items\": [\x7b\"url\": \"https://www.reddit.com/r/test/comments/abc/\", \"date\": \"\"\x7d]\x7d"

/-- The items value that `json.loads` yields on `exText`. -/
def exItems : Json :=
  Json.arr [Json.obj
    [("url", Json.str "https://www.reddit.com/r/test/comments/abc/"),
     ("date", Json.str "")]]

/-- The extraction collaborator on the counterexample run: on `exText` the
regex `r'\x7b[\s\S]*"items"[\s\S]*\x7d'` matches the whole text (it starts
with `\x7b`, contains `"items"` and ends with `\x7d`) and `json.loads`
yields `exItems`. -/
def exExtract : String → Json :=
  fun t => if t == exText then exItems else Json.arr []

/-- The counterexample response: the API returned the text directly in
`"output"`, and no `"error"` field is present. -/
def exResponse : List (String × Json) := [("output", Json.str exText)]

/-- The date condition of C10 as originally stated: the `date` field is
`None` or a string matching the `YYYY-MM-DD` pattern. -/
def dateOkOriginal : Json → Bool
  | Json.null => true
  | Json.str s => matchesDatePattern s
  | _ => false

/-- C10 counterexample: on `exResponse` the parser returns exactly one item,
and that item's `date` is the empty string — neither `None` nor a string
matching `YYYY-MM-DD` — because a falsy `date` skips the format validation
of line 214; so the claim as stated is false. -/
theorem parse_reddit_response_date_counterexample :
    ((parse_reddit_response exExtract exResponse).getD []).map
        (fun ci => dateOkOriginal ci.date) = [false] := by decide
